import Mathlib

/- Shallow embedding of the M-LAI repository (src/llm): JSON-like values,
   Python-style errors, the provider adapters in src/llm/providers, and the
   Chatbot conversation layer in src/llm/chatbot.py. -/

/-- Python exception classes that the embedded code raises or catches. -/
inductive PyError where
  | keyError (k : String)
  | indexError
  | typeError
  | attributeError
  | valueError (msg : String)
  | jsonDecodeError
  | fileNotFound
  | requestException (msg : String)
deriving DecidableEq, Repr

/-- JSON values: the data produced by `json.loads`, provider response bodies
    and the persisted documents. -/
inductive JValue where
  | jnull
  | jbool (b : Bool)
  | jnum (n : Int)
  | jstr (s : String)
  | jarr (xs : List JValue)
  | jobj (fields : List (String × JValue))

/-- First-match association lookup, the behaviour of a Python dict whose keys
    are unique. -/
def assocFind (k : String) : List (String × JValue) → Option JValue
  | [] => none
  | (k2, v) :: rest => if k2 = k then some v else assocFind k rest

/-- A Python subscript key: a string key or an integer index. -/
inductive PyKey where
  | kstr (s : String)
  | kidx (i : Nat)

/-- Python subscript `container[key]` as the providers use it: dict lookup
    raises KeyError on a missing key, list indexing raises IndexError when out
    of range, strings are indexable by position, other values raise TypeError. -/
def JValue.subscr : JValue → PyKey → Except PyError JValue
  | .jobj fs, .kstr k =>
    match assocFind k fs with
    | some v => .ok v
    | none => .error (.keyError k)
  | .jobj _, .kidx _ => .error (.keyError "0")
  | .jarr xs, .kidx i =>
    match xs.get? i with
    | some v => .ok v
    | none => .error .indexError
  | .jarr _, .kstr _ => .error .typeError
  | .jstr s, .kidx i =>
    match s.data.get? i with
    | some c => .ok (.jstr (String.mk [c]))
    | none => .error .indexError
  | .jstr _, .kstr _ => .error .typeError
  | _, _ => .error .typeError

/-- Python `d.get(key, default)`: only dicts have `.get`; other values raise
    AttributeError. -/
def JValue.dictGet : JValue → String → JValue → Except PyError JValue
  | .jobj fs, k, dflt => .ok ((assocFind k fs).getD dflt)
  | _, _, _ => .error .attributeError

/-- Python `key in container` for a string key: key membership for dicts,
    element membership for lists, substring test for strings; other values
    raise TypeError. -/
def JValue.containsStr : JValue → String → Except PyError Bool
  | .jobj fs, k => .ok (assocFind k fs).isSome
  | .jarr xs, k => .ok (xs.any (fun v => match v with | .jstr t => t = k | _ => false))
  | .jstr s, k => .ok ((List.range (s.length + 1)).any
      (fun i => decide ((s.data.drop i).take k.length = k.data)))
  | _, _ => .error .typeError

/-- Python truthiness of a JSON value: None, False, 0, the empty string, the
    empty list and the empty dict are falsy. -/
def JValue.falsy : JValue → Bool
  | .jnull => true
  | .jbool b => !b
  | .jnum n => n = 0
  | .jstr s => s = ""
  | .jarr xs => xs.isEmpty
  | .jobj fs => fs.isEmpty

/-- The embedding types Python string-valued fields as Lean strings; reading a
    string-typed field from a non-string JSON value surfaces as a TypeError. -/
def JValue.asStr : JValue → Except PyError String
  | .jstr s => .ok s
  | _ => .error .typeError

/-- Python `.strip()`: a string trims surrounding whitespace; a non-string
    receiver raises AttributeError. -/
def JValue.pyStrip : JValue → Except PyError String
  | .jstr s => .ok s.trim
  | _ => .error .attributeError

/-- Skip JSON whitespace. -/
def jsonSkipWs : List Char → List Char
  | c :: rest => if c = ' ' ∨ c = '\t' ∨ c = '\n' ∨ c = '\r' then jsonSkipWs rest else c :: rest
  | [] => []

/-- Read the body of a JSON string up to the closing quote. Escape sequences
    are outside the modelled fragment and make the parse fail. -/
def jsonStrChars : List Char → Option (List Char × List Char)
  | [] => none
  | c :: rest =>
    if c = '"' then some ([], rest)
    else if c = '\\' then none
    else
      match jsonStrChars rest with
      | some (cs, rem) => some (c :: cs, rem)
      | none => none

/-- Take a maximal run of decimal digits. -/
def jsonDigitsTake : List Char → (List Char × List Char)
  | [] => ([], [])
  | c :: rest =>
    if c.isDigit then
      let p := jsonDigitsTake rest
      (c :: p.1, p.2)
    else ([], c :: rest)

/-- Decimal value of a digit run, most significant digit first. -/
def natOfDigitChars (cs : List Char) : Nat :=
  cs.foldl (fun acc c => acc * 10 + (c.toNat - 48)) 0

mutual

/-- Fuel-indexed recursive-descent JSON parser: one value. -/
def jsonParseVal : Nat → List Char → Option (JValue × List Char)
  | 0, _ => none
  | fuel + 1, cs =>
    match jsonSkipWs cs with
    | 'n' :: 'u' :: 'l' :: 'l' :: rest => some (.jnull, rest)
    | 't' :: 'r' :: 'u' :: 'e' :: rest => some (.jbool true, rest)
    | 'f' :: 'a' :: 'l' :: 's' :: 'e' :: rest => some (.jbool false, rest)
    | '"' :: rest =>
      match jsonStrChars rest with
      | some (cs2, rem) => some (.jstr (String.mk cs2), rem)
      | none => none
    | '[' :: rest =>
      match jsonSkipWs rest with
      | ']' :: rem => some (.jarr [], rem)
      | other =>
        match jsonParseItems fuel other with
        | some (xs, rem) => some (.jarr xs, rem)
        | none => none
    | '\x7b' :: rest =>
      match jsonSkipWs rest with
      | '\x7d' :: rem => some (.jobj [], rem)
      | other =>
        match jsonParsePairs fuel other with
        | some (fs, rem) => some (.jobj fs, rem)
        | none => none
    | '-' :: rest =>
      match jsonDigitsTake rest with
      | ([], _) => none
      | (ds, rem) => some (.jnum (-(natOfDigitChars ds : Int)), rem)
    | c :: rest =>
      if c.isDigit then
        match jsonDigitsTake (c :: rest) with
        | (ds, rem) => some (.jnum ((natOfDigitChars ds : Int)), rem)
      else none
    | [] => none

/-- Fuel-indexed parser: comma-separated array items up to the closing
    bracket. -/
def jsonParseItems : Nat → List Char → Option (List JValue × List Char)
  | 0, _ => none
  | fuel + 1, cs =>
    match jsonParseVal fuel cs with
    | none => none
    | some (v, rem) =>
      match jsonSkipWs rem with
      | ',' :: rem2 =>
        match jsonParseItems fuel rem2 with
        | some (xs, rem3) => some (v :: xs, rem3)
        | none => none
      | ']' :: rem2 => some ([v], rem2)
      | _ => none

/-- Fuel-indexed parser: comma-separated object pairs up to the closing
    brace. -/
def jsonParsePairs : Nat → List Char → Option (List (String × JValue) × List Char)
  | 0, _ => none
  | fuel + 1, cs =>
    match jsonSkipWs cs with
    | '"' :: rest =>
      match jsonStrChars rest with
      | none => none
      | some (kcs, rem) =>
        match jsonSkipWs rem with
        | ':' :: rem2 =>
          match jsonParseVal fuel rem2 with
          | none => none
          | some (v, rem3) =>
            match jsonSkipWs rem3 with
            | ',' :: rem4 =>
              match jsonParsePairs fuel rem4 with
              | some (fs, rem5) => some ((String.mk kcs, v) :: fs, rem5)
              | none => none
            | '\x7d' :: rem4 => some ([(String.mk kcs, v)], rem4)
            | _ => none
        | _ => none
    | _ => none

end

/-- `json.loads`: parse a JSON document, raising JSONDecodeError when the text
    is not valid JSON or has trailing garbage. -/
def loads (s : String) : Except PyError JValue :=
  match jsonParseVal (s.length + 16) s.data with
  | some (v, rem) => if jsonSkipWs rem = [] then .ok v else .error .jsonDecodeError
  | none => .error .jsonDecodeError

/-- Model of `datetime.datetime`: an absolute timestamp in microseconds.
    `isoformat`/`fromisoformat` are modelled as the decimal text encoding; the
    properties of the real pair that the source relies on are that
    `fromisoformat` inverts `isoformat` and rejects non-conforming text. -/
structure Datetime where
  micros : Nat
deriving DecidableEq, Repr

/-- Little-endian decimal digits, with fuel for termination. -/
def natDigitsAux : Nat → Nat → List Nat
  | 0, _ => []
  | _ + 1, 0 => []
  | fuel + 1, n + 1 => ((n + 1) % 10) :: natDigitsAux fuel ((n + 1) / 10)

/-- Little-endian decimal digits of a natural number. -/
def natDigits (n : Nat) : List Nat := natDigitsAux n n

/-- Value of a little-endian decimal digit list. -/
def ofDigits10 : List Nat → Nat
  | [] => 0
  | d :: ds => d + 10 * ofDigits10 ds

/-- ASCII digit character of a digit value. -/
def digitChar10 (k : Nat) : Char := Char.ofNat (48 + k)

/-- `datetime.isoformat()`: the text encoding of a timestamp. -/
def Datetime.isoformat (d : Datetime) : String :=
  if d.micros = 0 then "0"
  else String.mk (((natDigits d.micros).reverse).map digitChar10)

/-- `datetime.fromisoformat`: decode the text encoding, raising ValueError on
    text that is not a well-formed encoding. -/
def Datetime.fromisoformat (s : String) : Except PyError Datetime :=
  if s.data ≠ [] ∧ s.data.all Char.isDigit = true then
    .ok ⟨ofDigits10 ((s.data.map (fun c => c.toNat - 48)).reverse)⟩
  else .error (.valueError "Invalid isoformat string")

/-- `datetime.fromisoformat` applied to a JSON field: a non-string raises
    TypeError. -/
def fromisoformatJ : JValue → Except PyError Datetime
  | .jstr s => Datetime.fromisoformat s
  | _ => .error .typeError

theorem natDigitsAux_sound : ∀ fuel n, n ≤ fuel → ofDigits10 (natDigitsAux fuel n) = n := by
  intro fuel
  induction fuel with
  | zero => intro n hn; interval_cases n; rfl
  | succ fuel ih =>
    intro n hn
    match n with
    | 0 => rfl
    | m + 1 =>
      have hdiv : (m + 1) / 10 ≤ fuel := by omega
      simp only [natDigitsAux, ofDigits10, ih _ hdiv]
      omega

theorem natDigitsAux_lt : ∀ fuel n d, d ∈ natDigitsAux fuel n → d < 10 := by
  intro fuel
  induction fuel with
  | zero => intro n d hd; simp [natDigitsAux] at hd
  | succ fuel ih =>
    intro n d hd
    match n with
    | 0 => simp [natDigitsAux] at hd
    | m + 1 =>
      simp only [natDigitsAux, List.mem_cons] at hd
      rcases hd with h | h
      · omega
      · exact ih _ _ h

theorem digitChar10_toNat : ∀ k, k < 10 → (digitChar10 k).toNat = 48 + k := by
  intro k hk
  interval_cases k <;> decide

theorem digitChar10_isDigit : ∀ k, k < 10 → (digitChar10 k).isDigit = true := by
  intro k hk
  interval_cases k <;> decide

theorem fromisoformat_isoformat (d : Datetime) :
    Datetime.fromisoformat d.isoformat = .ok d := by
  obtain ⟨n⟩ := d
  by_cases h0 : n = 0
  · subst h0; rfl
  · have hne : natDigits n ≠ [] := by
      match n, h0 with
      | m + 1, _ => simp [natDigits, natDigitsAux]
    have hdata : (Datetime.isoformat ⟨n⟩).data = ((natDigits n).reverse).map digitChar10 := by
      simp [Datetime.isoformat, h0]
    have hall : ((Datetime.isoformat ⟨n⟩).data).all Char.isDigit = true := by
      rw [hdata, List.all_eq_true]
      intro c hc
      simp only [List.mem_map, List.mem_reverse] at hc
      obtain ⟨k, hk, rfl⟩ := hc
      exact digitChar10_isDigit k (natDigitsAux_lt n n k hk)
    have hnonnil : (Datetime.isoformat ⟨n⟩).data ≠ [] := by
      rw [hdata]
      simp only [ne_eq, List.map_eq_nil_iff, List.reverse_eq_nil_iff]
      exact hne
    rw [Datetime.fromisoformat, if_pos ⟨hnonnil, hall⟩]
    congr 1
    rw [hdata, List.map_map]
    have hcongr : (((natDigits n).reverse).map ((fun c => c.toNat - 48) ∘ digitChar10))
        = (natDigits n).reverse := by
      rw [List.map_congr_left, List.map_id]
      intro k hk
      simp only [Function.comp_apply, id_eq]
      rw [digitChar10_toNat k (natDigitsAux_lt n n k (List.mem_reverse.mp hk))]
      omega
    rw [hcongr, List.reverse_reverse]
    exact congrArg Datetime.mk (natDigitsAux_sound n n le_rfl)

/-- The value `datetime.now()` had when the `Entity` class body was executed:
    Python evaluates a dataclass field default once, at class-definition time,
    so every later construction without an explicit `created_at` shares this
    single value (src/llm/chatbot.py line 13). -/
def entityClassLoadTime : Datetime := ⟨1700000000000000⟩

/-- src/llm/chatbot.py, `Entity`. -/
structure Entity where
  name : String
  attributes : JValue
  created_at : Datetime := entityClassLoadTime

/-- `Entity.to_dict`. -/
def Entity.toDictJ (e : Entity) : JValue :=
  .jobj [("name", .jstr e.name),
         ("attributes", e.attributes),
         ("created_at", .jstr e.created_at.isoformat)]

/-- `Entity.from_dict`: builds the entity from "name"/"attributes" (the
    `created_at` default applies, as in `cls(...)`), then overwrites
    `created_at` when the key is present. -/
def Entity.fromDictJ (data : JValue) : Except PyError Entity := do
  let n ← data.subscr (.kstr "name")
  let a ← data.subscr (.kstr "attributes")
  let ns ← n.asStr
  let hasCreated ← data.containsStr "created_at"
  if hasCreated then
    let c ← data.subscr (.kstr "created_at")
    let t ← fromisoformatJ c
    pure { name := ns, attributes := a, created_at := t }
  else
    pure { name := ns, attributes := a }

/-- src/llm/chatbot.py, `HistoryEntry`; `metadata` defaults to `None`. -/
structure HistoryEntry where
  timestamp : Datetime
  query : String
  response : String
  metadata : Option JValue := none

/-- The expression `self.metadata or ...empty dict...` in
    `HistoryEntry.to_dict`: a missing or falsy metadata value becomes the
    empty mapping. -/
def HistoryEntry.metaOrEmpty (m : Option JValue) : JValue :=
  match m with
  | none => .jobj []
  | some v => if v.falsy then .jobj [] else v

/-- `HistoryEntry.to_dict`. -/
def HistoryEntry.toDictJ (e : HistoryEntry) : JValue :=
  .jobj [("timestamp", .jstr e.timestamp.isoformat),
         ("query", .jstr e.query),
         ("response", .jstr e.response),
         ("metadata", HistoryEntry.metaOrEmpty e.metadata)]

/-- `HistoryEntry.from_dict`: required keys raise KeyError when absent;
    `metadata` falls back to the empty mapping via `.get`. -/
def HistoryEntry.fromDictJ (data : JValue) : Except PyError HistoryEntry := do
  let ts ← data.subscr (.kstr "timestamp")
  let t ← fromisoformatJ ts
  let q ← data.subscr (.kstr "query")
  let qs ← q.asStr
  let r ← data.subscr (.kstr "response")
  let rs ← r.asStr
  let m ← data.dictGet "metadata" (.jobj [])
  pure { timestamp := t, query := qs, response := rs, metadata := some m }

/-- The shared generation parameters stored by `BaseLLM.__init__`. Python
    floats are modelled as rationals. -/
structure LLMConfig where
  model : Option String
  temperature : ℚ
  maxTokens : Int
  topP : ℚ
  frequencyPenalty : ℚ
  presencePenalty : ℚ
  options : List (String × JValue)

/-- src/llm/base.py, `BaseLLM.__init__`: range-checks temperature and top_p
    and stores the parameters. -/
def baseLLMInit (model : Option String) (temperature : ℚ) (maxTokens : Int)
    (topP frequencyPenalty presencePenalty : ℚ) (options : List (String × JValue)) :
    Except PyError LLMConfig :=
  if ¬ (0 ≤ temperature ∧ temperature ≤ 1) then
    .error (.valueError "Temperature must be between 0 and 1")
  else if ¬ (0 ≤ topP ∧ topP ≤ 1) then
    .error (.valueError "Top_p must be between 0 and 1")
  else
    .ok { model := model, temperature := temperature, maxTokens := maxTokens,
          topP := topP, frequencyPenalty := frequencyPenalty,
          presencePenalty := presencePenalty, options := options }

/-- A constructed provider adapter: stored config, credential and endpoint. -/
structure ProviderState where
  config : LLMConfig
  apiKey : String
  url : String

/-- The process environment, as read by `os.getenv`. -/
abbrev EnvMap : Type := String → Option String

/-- src/llm/providers/openai_provider.py, `OpenAILLM.__init__`: base
    validation runs first (`super().__init__`), then OPENAI_API_KEY is
    resolved; a missing or empty (Python-falsy) key raises ValueError. -/
def openaiInit (env : EnvMap) (model : Option String) (temperature : ℚ) (maxTokens : Int)
    (topP frequencyPenalty presencePenalty : ℚ) (options : List (String × JValue)) :
    Except PyError ProviderState := do
  let cfg ← baseLLMInit model temperature maxTokens topP frequencyPenalty presencePenalty options
  match env "OPENAI_API_KEY" with
  | none => .error (.valueError "OpenAI API key missing in environment variables.")
  | some k =>
    if k = "" then .error (.valueError "OpenAI API key missing in environment variables.")
    else .ok { config := cfg, apiKey := k, url := "https://api.openai.com/v1/chat/completions" }

/-- src/llm/providers/anthropic_provider.py, `AnthropicLLM.__init__`. -/
def anthropicInit (env : EnvMap) (model : Option String) (temperature : ℚ) (maxTokens : Int)
    (topP frequencyPenalty presencePenalty : ℚ) (options : List (String × JValue)) :
    Except PyError ProviderState := do
  let cfg ← baseLLMInit model temperature maxTokens topP frequencyPenalty presencePenalty options
  match env "ANTHROPIC_API_KEY" with
  | none => .error (.valueError "Anthropic API key missing in environment variables.")
  | some k =>
    if k = "" then .error (.valueError "Anthropic API key missing in environment variables.")
    else .ok { config := cfg, apiKey := k, url := "https://api.anthropic.com/v1/messages" }

/-- src/llm/providers/mistral_provider.py, `MistralLLM.__init__`. -/
def mistralInit (env : EnvMap) (model : Option String) (temperature : ℚ) (maxTokens : Int)
    (topP frequencyPenalty presencePenalty : ℚ) (options : List (String × JValue)) :
    Except PyError ProviderState := do
  let cfg ← baseLLMInit model temperature maxTokens topP frequencyPenalty presencePenalty options
  match env "MISTRAL_API_KEY" with
  | none => .error (.valueError "Mistral API key missing in environment variables.")
  | some k =>
    if k = "" then .error (.valueError "Mistral API key missing in environment variables.")
    else .ok { config := cfg, apiKey := k, url := "https://api.mistral.ai/v1/chat/completions" }

/-- src/llm/providers/cohere_provider.py, `CohereLLM.__init__`. -/
def cohereInit (env : EnvMap) (model : Option String) (temperature : ℚ) (maxTokens : Int)
    (topP frequencyPenalty presencePenalty : ℚ) (options : List (String × JValue)) :
    Except PyError ProviderState := do
  let cfg ← baseLLMInit model temperature maxTokens topP frequencyPenalty presencePenalty options
  match env "CO_API_KEY" with
  | none => .error (.valueError "Cohere API key missing in environment variables.")
  | some k =>
    if k = "" then .error (.valueError "Cohere API key missing in environment variables.")
    else .ok { config := cfg, apiKey := k, url := "https://api.cohere.com/v2/chat" }

/-- The outcome of `requests.post` plus `raise_for_status` for a non-streaming
    call: a transport failure or non-2xx status raising RequestException, or a
    2xx response with a JSON body. -/
inductive HttpResult where
  | exn (msg : String)
  | ok (body : JValue)

/-- src/llm/providers/openai_provider.py, `OpenAILLM.generate`: returns
    `body["choices"][0]["message"]["content"].strip()`; the surrounding `try`
    catches RequestException and KeyError only, every other exception
    propagates to the caller. -/
def openaiGenerate (r : HttpResult) : Except PyError String :=
  match r with
  | .exn m => .ok ("Error during OpenAI request: " ++ m)
  | .ok body =>
    match (do
        let c ← body.subscr (.kstr "choices")
        let c0 ← c.subscr (.kidx 0)
        let msg ← c0.subscr (.kstr "message")
        let content ← msg.subscr (.kstr "content")
        content.pyStrip : Except PyError String) with
    | .ok s => .ok s
    | .error (.keyError _) => .ok "Error parsing OpenAI API response."
    | .error e => .error e

/-- src/llm/providers/anthropic_provider.py, `AnthropicLLM.generate`: returns
    `body["content"][0]["text"].strip()` with the same exception handling as
    the OpenAI adapter. -/
def anthropicGenerate (r : HttpResult) : Except PyError String :=
  match r with
  | .exn m => .ok ("Error during Anthropic request: " ++ m)
  | .ok body =>
    match (do
        let c ← body.subscr (.kstr "content")
        let c0 ← c.subscr (.kidx 0)
        let t ← c0.subscr (.kstr "text")
        t.pyStrip : Except PyError String) with
    | .ok s => .ok s
    | .error (.keyError _) => .ok "Error parsing Anthropic API response."
    | .error e => .error e

/-- `str(e)` for an exception, as interpolated into error messages. -/
def pyStr : PyError → String
  | .keyError k => "'" ++ k ++ "'"
  | .indexError => "list index out of range"
  | .typeError => "type error"
  | .attributeError => "attribute error"
  | .valueError m => m
  | .jsonDecodeError => "Expecting value: line 1 column 1 (char 0)"
  | .fileNotFound => "file not found"
  | .requestException m => m

/-- Python `s.startswith(pre)`, computed on the character lists. -/
def pyStartsWith (s pre : String) : Bool := decide (s.data.take pre.data.length = pre.data)

/-- Python `s[n:]`: drop the first `n` characters. -/
def pyDrop (s : String) (n : Nat) : String := String.mk (s.data.drop n)

/-- The terminal chunk produced by a streaming generator's `except` clause. -/
def streamErrorChunk (e : PyError) : String := "Error during streaming: " ++ pyStr e

/-- Truthiness filter of the walrus guard `if content := ...`: a nonempty
    string is yielded; None and the empty string are skipped. The modelled
    streaming fragment restricts delta payload values to strings and null. -/
def truthyStr : JValue → Option String
  | .jstr s => if s = "" then none else some s
  | _ => none

/-- src/llm/providers/openai_provider.py lines 64-66: extract the incremental
    delta `data['choices'][0].get('delta', ...).get('content')` from one
    parsed streaming payload. -/
def openaiDelta (data : JValue) : Except PyError (Option String) := do
  let c ← data.subscr (.kstr "choices")
  let c0 ← c.subscr (.kidx 0)
  let d ← c0.dictGet "delta" (.jobj [])
  let content ← d.dictGet "content" .jnull
  pure (truthyStr content)

/-- src/llm/providers/mistral_provider.py lines 60-62: extract the delta
    `data.get('choices', ...)[0].get('delta', ...).get('content')`. -/
def mistralDelta (data : JValue) : Except PyError (Option String) := do
  let c ← data.dictGet "choices" (.jarr [.jobj []])
  let c0 ← c.subscr (.kidx 0)
  let d ← c0.dictGet "delta" (.jobj [])
  let content ← d.dictGet "content" .jnull
  pure (truthyStr content)

/-- src/llm/providers/anthropic_provider.py lines 63-65: yield
    `data['delta']['text']` when both keys are present, with no truthiness
    filter (an empty string is yielded). -/
def anthropicDelta (data : JValue) : Except PyError (Option String) := do
  let hasD ← data.containsStr "delta"
  if hasD then
    let d ← data.subscr (.kstr "delta")
    let hasT ← d.containsStr "text"
    if hasT then
      let t ← d.subscr (.kstr "text")
      let ts ← t.asStr
      pure (some ts)
    else pure none
  else pure none

/-- src/llm/providers/cohere_provider.py lines 63-65: yield `data['text']`
    when the key is present, with no truthiness filter. -/
def cohereDelta (data : JValue) : Except PyError (Option String) := do
  let hasT ← data.containsStr "text"
  if hasT then
    let t ← data.subscr (.kstr "text")
    let ts ← t.asStr
    pure (some ts)
  else pure none

/-- src/llm/providers/openai_provider.py, `OpenAILLM.generate_stream`, line
    loop over the decoded SSE body: empty lines and lines without the
    "data: " marker are skipped, "data: [DONE]" stops the generator, other
    payloads are JSON-parsed and their delta yielded. The whole loop runs
    inside `try`, so the first exception (malformed JSON included) yields one
    terminal error chunk and ends the generator. -/
def openaiStreamLines : List String → List String
  | [] => []
  | line :: rest =>
    if line = "" then openaiStreamLines rest
    else if pyStartsWith line "data: " then
      if line = "data: [DONE]" then []
      else
        match loads (pyDrop line 6) with
        | .error e => [streamErrorChunk e]
        | .ok data =>
          match openaiDelta data with
          | .error e => [streamErrorChunk e]
          | .ok none => openaiStreamLines rest
          | .ok (some tok) => tok :: openaiStreamLines rest
    else openaiStreamLines rest

/-- src/llm/providers/anthropic_provider.py, `AnthropicLLM.generate_stream`,
    line loop: same shape as the OpenAI adapter, with the Anthropic delta. -/
def anthropicStreamLines : List String → List String
  | [] => []
  | line :: rest =>
    if line = "" then anthropicStreamLines rest
    else if pyStartsWith line "data: " then
      if line = "data: [DONE]" then []
      else
        match loads (pyDrop line 6) with
        | .error e => [streamErrorChunk e]
        | .ok data =>
          match anthropicDelta data with
          | .error e => [streamErrorChunk e]
          | .ok none => anthropicStreamLines rest
          | .ok (some tok) => tok :: anthropicStreamLines rest
    else anthropicStreamLines rest

/-- src/llm/providers/mistral_provider.py, `MistralLLM.generate_stream`, line
    loop: NOTE the source has no "data: [DONE]" sentinel branch, so a sentinel
    line reaches `json.loads`. -/
def mistralStreamLines : List String → List String
  | [] => []
  | line :: rest =>
    if line = "" then mistralStreamLines rest
    else if pyStartsWith line "data: " then
      match loads (pyDrop line 6) with
      | .error e => [streamErrorChunk e]
      | .ok data =>
        match mistralDelta data with
        | .error e => [streamErrorChunk e]
        | .ok none => mistralStreamLines rest
        | .ok (some tok) => tok :: mistralStreamLines rest
    else mistralStreamLines rest

/-- src/llm/providers/cohere_provider.py, `CohereLLM.generate_stream`, line
    loop: like Mistral, the source has no sentinel branch. -/
def cohereStreamLines : List String → List String
  | [] => []
  | line :: rest =>
    if line = "" then cohereStreamLines rest
    else if pyStartsWith line "data: " then
      match loads (pyDrop line 6) with
      | .error e => [streamErrorChunk e]
      | .ok data =>
        match cohereDelta data with
        | .error e => [streamErrorChunk e]
        | .ok none => cohereStreamLines rest
        | .ok (some tok) => tok :: cohereStreamLines rest
    else cohereStreamLines rest

/-- The outcome of the streaming `requests.post` plus `raise_for_status`: a
    transport failure, or a 2xx SSE body given as its decoded lines. -/
inductive HttpStreamResult where
  | exn (msg : String)
  | ok (lines : List String)

/-- `OpenAILLM.generate_stream` end to end: an HTTP-level failure yields
    exactly one error chunk, a stream body is processed line by line. -/
def openaiGenerateStream : HttpStreamResult → List String
  | .exn m => [streamErrorChunk (.requestException m)]
  | .ok lines => openaiStreamLines lines

/-- `AnthropicLLM.generate_stream` end to end. -/
def anthropicGenerateStream : HttpStreamResult → List String
  | .exn m => [streamErrorChunk (.requestException m)]
  | .ok lines => anthropicStreamLines lines

/-- `MistralLLM.generate_stream` end to end. -/
def mistralGenerateStream : HttpStreamResult → List String
  | .exn m => [streamErrorChunk (.requestException m)]
  | .ok lines => mistralStreamLines lines

/-- `CohereLLM.generate_stream` end to end. -/
def cohereGenerateStream : HttpStreamResult → List String
  | .exn m => [streamErrorChunk (.requestException m)]
  | .ok lines => cohereStreamLines lines

/-- src/llm/chatbot.py, the conversation state owned by `Chatbot`. The two
    `saved*` fields model the JSON documents most recently written by
    `_save_entities` / `_save_history`; `maxHistory` is a Python int. -/
structure ChatbotState where
  systemPrompt : String
  context : Option String
  maxHistory : Int
  entities : List (String × Entity)
  history : List HistoryEntry
  savedEntities : Option JValue
  savedHistory : Option JValue

/-- Python slice `l[-m:]` for an arbitrary integer `m`: a positive `m` keeps
    the last `m` elements (all of them when `m` exceeds the length); `m = 0`
    keeps the whole list (the slice start is literal 0); a negative `m` drops
    the first `-m` elements. -/
def pySliceLast (l : List HistoryEntry) (m : Int) : List HistoryEntry :=
  if 0 < m then l.drop (l.length - m.toNat)
  else l.drop (-m).toNat

/-- The document written by `_save_entities`: the name-keyed mapping of
    `to_dict` forms. -/
def entitiesDoc (ents : List (String × Entity)) : JValue :=
  .jobj (ents.map (fun p => (p.1, p.2.toDictJ)))

/-- The document written by `_save_history`: the list of `to_dict` forms. -/
def historyDoc (h : List HistoryEntry) : JValue :=
  .jarr (h.map HistoryEntry.toDictJ)

/-- `Chatbot._save_entities`: rewrite the whole entities document. -/
def saveEntities (st : ChatbotState) : ChatbotState :=
  { st with savedEntities := some (entitiesDoc st.entities) }

/-- `Chatbot._save_history`: rewrite the whole history document. -/
def saveHistory (st : ChatbotState) : ChatbotState :=
  { st with savedHistory := some (historyDoc st.history) }

/-- Sequential effectful map: evaluate left to right, propagating the first
    raised exception, as a Python list/dict comprehension does. -/
def exceptMapList (f : α → Except PyError β) : List α → Except PyError (List β)
  | [] => .ok []
  | x :: xs => do
    let y ← f x
    let ys ← exceptMapList f xs
    pure (y :: ys)

/-- src/llm/chatbot.py, `Chatbot._load_entities`: an absent file
    (FileNotFoundError) or non-JSON text (JSONDecodeError) is caught and gives
    the empty mapping; any other exception — a KeyError from
    `Entity.from_dict`, or an AttributeError from `.items()` on a non-dict
    document — propagates to the caller. -/
def loadEntities (file : Option String) : Except PyError (List (String × Entity)) :=
  match file with
  | none => .ok []
  | some text =>
    match loads text with
    | .error _ => .ok []
    | .ok data =>
      match data with
      | .jobj fields => exceptMapList (fun p => (Entity.fromDictJ p.2).map (fun e => (p.1, e))) fields
      | _ => .error .attributeError

/-- src/llm/chatbot.py, `Chatbot._load_history`: same catch set as
    `_load_entities`; a failing `HistoryEntry.from_dict` propagates, and a
    JSON document that is not a list of suitable dicts raises (modelled as
    the TypeError Python ultimately raises on such documents). -/
def loadHistory (file : Option String) : Except PyError (List HistoryEntry) :=
  match file with
  | none => .ok []
  | some text =>
    match loads text with
    | .error _ => .ok []
    | .ok data =>
      match data with
      | .jarr items => exceptMapList HistoryEntry.fromDictJ items
      | _ => .error .typeError

/-- Python dict assignment `d[name] = v`, preserving insertion order. -/
def dictSet (m : List (String × Entity)) (k : String) (v : Entity) :
    List (String × Entity) :=
  if m.any (fun p => p.1 = k) then m.map (fun p => if p.1 = k then (k, v) else p)
  else m ++ [(k, v)]

/-- src/llm/chatbot.py, `Chatbot.add_entity`: constructs
    `Entity(name=..., attributes=...)` — no `created_at` argument, so the
    class-definition-time default applies regardless of the current time
    `now` — stores it under the name, persists the mapping and returns it. -/
def addEntity (st : ChatbotState) (now : Datetime) (name : String)
    (attributes : JValue) : Entity × ChatbotState :=
  let _ := now
  let e : Entity := { name := name, attributes := attributes }
  let st2 := saveEntities { st with entities := dictSet st.entities name e }
  (e, st2)

/-- `Chatbot.get_entity`: pure lookup, no side effect. -/
def getEntity (st : ChatbotState) (name : String) : Option Entity :=
  (st.entities.find? (fun p => p.1 = name)).map Prod.snd

/-- The two prompt lines a history entry is rendered as. -/
def renderEntry (e : HistoryEntry) : List String :=
  ["User: " ++ e.query, "Assistant: " ++ e.response]

/-- src/llm/chatbot.py, `Chatbot._create_prompt`: assemble the prompt parts
    (system prompt and context when truthy, the windowed history when the
    stored history is nonempty, the new query line) and join with newlines. -/
def createPrompt (st : ChatbotState) (query : String) : String :=
  let parts1 : List String :=
    if st.systemPrompt ≠ "" then ["System: " ++ st.systemPrompt ++ "\n"] else []
  let parts2 : List String :=
    match st.context with
    | some c => if c ≠ "" then ["Context: " ++ c ++ "\n"] else []
    | none => []
  let parts3 : List String :=
    if st.history.isEmpty then []
    else "Previous conversation:" ::
      ((pySliceLast st.history st.maxHistory).flatMap renderEntry ++ [""])
  String.intercalate "\n" (parts1 ++ parts2 ++ parts3 ++ ["User: " ++ query])

/-- Result of the non-streaming chat path: the returned text, the updated
    state, and the trace of prompts passed to the adapter's `generate`. -/
structure ChatResult where
  response : String
  state : ChatbotState
  generateCalls : List String

/-- src/llm/chatbot.py, `chat` with `stream=False` followed by
    `_generate_response`: build the prompt, call `generate` once on it, append
    one HistoryEntry (timestamp `now`, the original query, the returned text,
    default metadata), persist the history, return the text. -/
def chatNoStream (gen : String → String) (now : Datetime) (st : ChatbotState)
    (query : String) : ChatResult :=
  let prompt := createPrompt st query
  let response := gen prompt
  let entry : HistoryEntry := { timestamp := now, query := query, response := response }
  let st2 := saveHistory { st with history := st.history ++ [entry] }
  { response := response, state := st2, generateCalls := [prompt] }

/-- Run the `_stream_response` generator under a consumer that issues a given
    number of next() calls: the yielded chunks, and whether the epilogue after
    the for loop was reached. The call one past the last chunk runs the
    epilogue before StopIteration; a consumer that stops earlier abandons the
    generator with the epilogue never executed. -/
def streamRun : List String → Nat → List String × Bool
  | _, 0 => ([], false)
  | [], _ + 1 => ([], true)
  | c :: cs, n + 1 =>
    let p := streamRun cs n
    (c :: p.1, p.2)

/-- src/llm/chatbot.py, `chat` with `stream=True` followed by
    `_stream_response`: forward each chunk of `generate_stream(prompt)` to the
    consumer; only when the consumer exhausts the generator does the epilogue
    append one HistoryEntry carrying the concatenation of all chunks and
    persist it; an abandoned generator leaves the state untouched. -/
def chatStream (genStream : String → List String) (now : Datetime) (st : ChatbotState)
    (query : String) (pulls : Nat) : List String × ChatbotState :=
  let chunks := genStream (createPrompt st query)
  let r := streamRun chunks pulls
  if r.2 then
    let entry : HistoryEntry :=
      { timestamp := now, query := query, response := String.join chunks }
    (r.1, saveHistory { st with history := st.history ++ [entry] })
  else (r.1, st)

/-- `Chatbot.clear_history`: empty the sequence and persist it. -/
def clearHistory (st : ChatbotState) : ChatbotState :=
  saveHistory { st with history := [] }

/- ===== Helper lemmas ===== -/

theorem streamRun_drained (chunks : List String) (n : Nat) (h : chunks.length < n) :
    streamRun chunks n = (chunks, true) := by
  induction chunks generalizing n with
  | nil =>
    match n, h with
    | m + 1, _ => rfl
  | cons c cs ih =>
    match n, h with
    | m + 1, h =>
      simp only [streamRun]
      rw [ih m (by simpa using h)]

theorem streamRun_partial (chunks : List String) (n : Nat) (h : n ≤ chunks.length) :
    streamRun chunks n = (chunks.take n, false) := by
  induction n generalizing chunks with
  | zero => cases chunks <;> rfl
  | succ m ih =>
    match chunks, h with
    | c :: cs, h =>
      simp only [streamRun, List.take_succ_cons]
      rw [ih cs (by simpa using h)]

/-- An empty conversation state, as hydrated from absent documents with the
    default construction parameters. -/
def sampleState : ChatbotState :=
  { systemPrompt := "You are a helpful assistant.", context := none, maxHistory := 10,
    entities := [], history := [], savedEntities := none, savedHistory := none }

/- ===== C2 ===== -/

/-- C2: a non-streaming chat call invokes the adapter's `generate` exactly
    once, on the built prompt; appends exactly one HistoryEntry whose query is
    the input query and whose response is the adapter's returned text;
    increases the history length by exactly 1; persists the history; and
    returns that same text. -/
theorem C2_chat_nostream (gen : String → String) (now : Datetime)
    (st : ChatbotState) (query : String) :
    (chatNoStream gen now st query).generateCalls = [createPrompt st query] ∧
    (chatNoStream gen now st query).state.history = st.history ++
      [{ timestamp := now, query := query, response := gen (createPrompt st query),
         metadata := none }] ∧
    (chatNoStream gen now st query).state.history.length = st.history.length + 1 ∧
    (chatNoStream gen now st query).state.savedHistory =
      some (historyDoc ((chatNoStream gen now st query).state.history)) ∧
    (chatNoStream gen now st query).response = gen (createPrompt st query) := by
  refine ⟨rfl, rfl, ?_, rfl, rfl⟩
  simp [chatNoStream, saveHistory]

/- ===== C10 ===== -/

/-- C10: the `created_at` of an Entity constructed without an explicit value
    is the dataclass default, evaluated once when the class body ran; hence
    any two `add_entity` calls in the same process return entities with equal
    `created_at` values, regardless of when each call occurs. -/
theorem C10_add_entity_created_at (st1 st2 : ChatbotState) (now1 now2 : Datetime)
    (n1 n2 : String) (a1 a2 : JValue) :
    (addEntity st1 now1 n1 a1).1.created_at = (addEntity st2 now2 n2 a2).1.created_at ∧
    (addEntity st1 now1 n1 a1).1.created_at = entityClassLoadTime := ⟨rfl, rfl⟩

/- ===== C1 ===== -/

/-- C1: when chat is called with streaming enabled and the caller drains the
    stream to exhaustion (issues more pulls than there are chunks), the stream
    yields every chunk in order and exactly one HistoryEntry is appended whose
    response is the concatenation of those chunks, and the history is
    persisted; when the caller abandons the stream after consuming only the
    first chunk, no HistoryEntry is appended and the state is unchanged. -/
theorem C1_chat_stream (genStream : String → List String) (now : Datetime)
    (st : ChatbotState) (query : String) (pulls : Nat) :
    ((genStream (createPrompt st query)).length < pulls →
      (chatStream genStream now st query pulls).1 = genStream (createPrompt st query) ∧
      (chatStream genStream now st query pulls).2.history = st.history ++
        [{ timestamp := now, query := query,
           response := String.join (genStream (createPrompt st query)),
           metadata := none }] ∧
      (chatStream genStream now st query pulls).2.savedHistory =
        some (historyDoc ((chatStream genStream now st query pulls).2.history))) ∧
    (pulls = 1 → genStream (createPrompt st query) ≠ [] →
      (chatStream genStream now st query pulls).1 =
        (genStream (createPrompt st query)).take 1 ∧
      (chatStream genStream now st query pulls).2 = st) := by
  constructor
  · intro h
    simp only [chatStream, streamRun_drained _ _ h]
    exact ⟨rfl, rfl, rfl⟩
  · intro hp hne
    subst hp
    have hlen : 1 ≤ (genStream (createPrompt st query)).length :=
      Nat.one_le_iff_ne_zero.mpr (by simpa using hne)
    simp only [chatStream, streamRun_partial _ 1 hlen]
    exact ⟨rfl, rfl⟩

/-- C1 witness: a mocked adapter yielding ["Hel", "lo"]; three pulls drain
    the stream and persist the concatenation "Hello"; a single pull leaves the
    state untouched. -/
theorem C1_chat_stream_witness :
    (chatStream (fun _ => ["Hel", "lo"]) ⟨5⟩ sampleState "hi" 3).1 = ["Hel", "lo"] ∧
    (chatStream (fun _ => ["Hel", "lo"]) ⟨5⟩ sampleState "hi" 3).2.history =
      sampleState.history ++
        [{ timestamp := ⟨5⟩, query := "hi", response := String.join ["Hel", "lo"],
           metadata := none }] ∧
    (chatStream (fun _ => ["Hel", "lo"]) ⟨5⟩ sampleState "hi" 1).1 = ["Hel"] ∧
    (chatStream (fun _ => ["Hel", "lo"]) ⟨5⟩ sampleState "hi" 1).2 = sampleState := by
  have h3 := C1_chat_stream (fun _ => ["Hel", "lo"]) ⟨5⟩ sampleState "hi" 3
  have h1 := C1_chat_stream (fun _ => ["Hel", "lo"]) ⟨5⟩ sampleState "hi" 1
  have hd := h3.1 (by decide)
  have ha := h1.2 rfl (by decide)
  exact ⟨hd.1, hd.2.1, ha.1, ha.2⟩

/- ===== C7 ===== -/

/-- C7: the built prompt is, in fixed order, the system-prompt part (when
    present), the context part (when present), the rendered history window,
    and the new query line, joined by newlines; the window is exactly the
    drop of all but the last `max_history` stored entries — a suffix of the
    stored history of length `min max_history length` rendered as two lines
    per entry in chronological order (oldest of the window first) — and the
    stored history itself is untouched, `_create_prompt` being a pure
    function of the state. -/
theorem C7_create_prompt (st : ChatbotState) (query : String)
    (hpos : 0 < st.maxHistory) :
    createPrompt st query = String.intercalate "\n"
      ((if st.systemPrompt ≠ "" then ["System: " ++ st.systemPrompt ++ "\n"] else []) ++
       (match st.context with
        | some c => if c ≠ "" then ["Context: " ++ c ++ "\n"] else []
        | none => []) ++
       (if st.history.isEmpty then []
        else "Previous conversation:" ::
          ((st.history.drop (st.history.length - st.maxHistory.toNat)).flatMap renderEntry
            ++ [""])) ++
       ["User: " ++ query]) ∧
    (st.history.drop (st.history.length - st.maxHistory.toNat)).length =
      min st.maxHistory.toNat st.history.length ∧
    List.IsSuffix (st.history.drop (st.history.length - st.maxHistory.toNat)) st.history := by
  refine ⟨?_, ?_, List.drop_suffix _ _⟩
  · simp only [createPrompt, pySliceLast, if_pos hpos]
  · rw [List.length_drop]; omega

/-- A state with `max_history = 2` and five stored entries, the spec's own
    test scenario. -/
def promptSampleState : ChatbotState :=
  { systemPrompt := "S", context := some "C", maxHistory := 2,
    entities := [],
    history := [⟨⟨1⟩, "q1", "r1", none⟩, ⟨⟨2⟩, "q2", "r2", none⟩, ⟨⟨3⟩, "q3", "r3", none⟩,
                ⟨⟨4⟩, "q4", "r4", none⟩, ⟨⟨5⟩, "q5", "r5", none⟩],
    savedEntities := none, savedHistory := none }

/-- C7 witness: with `max_history = 2` and five stored entries only the two
    most recent pairs appear, in chronological order, before the new query. -/
theorem C7_create_prompt_witness :
    0 < promptSampleState.maxHistory ∧
    createPrompt promptSampleState "q6" =
      "System: S\n\nContext: C\n\nPrevious conversation:\nUser: q4\nAssistant: r4\nUser: q5\nAssistant: r5\n\nUser: q6" := by
  refine ⟨by decide, ?_⟩
  have h := (C7_create_prompt promptSampleState "q6" (by decide)).1
  rw [h]
  rfl

/- ===== C8 ===== -/

/-- C8: with the required credential present (and nonempty, since Python
    treats an empty string as missing), construction of each of the four
    adapters succeeds for every temperature and top_p in the closed unit
    interval, and fails for any value outside it with the construction-time
    range ValueError raised by `BaseLLM.__init__` — the error the spec's
    taxonomy names ConfigurationError. -/
theorem C8_adapter_construction (env : EnvMap)
    (henv : ∀ nm, ∃ k, env nm = some k ∧ k ≠ "")
    (model : Option String) (mt : Int) (t p f pr : ℚ) (opts : List (String × JValue)) :
    (((0 ≤ t ∧ t ≤ 1) ∧ (0 ≤ p ∧ p ≤ 1)) →
      (openaiInit env model t mt p f pr opts).isOk = true ∧
      (anthropicInit env model t mt p f pr opts).isOk = true ∧
      (mistralInit env model t mt p f pr opts).isOk = true ∧
      (cohereInit env model t mt p f pr opts).isOk = true) ∧
    (¬ ((0 ≤ t ∧ t ≤ 1) ∧ (0 ≤ p ∧ p ≤ 1)) →
      ∃ msg,
        openaiInit env model t mt p f pr opts = .error (.valueError msg) ∧
        anthropicInit env model t mt p f pr opts = .error (.valueError msg) ∧
        mistralInit env model t mt p f pr opts = .error (.valueError msg) ∧
        cohereInit env model t mt p f pr opts = .error (.valueError msg)) := by
  obtain ⟨kO, hkO, hneO⟩ := henv "OPENAI_API_KEY"
  obtain ⟨kA, hkA, hneA⟩ := henv "ANTHROPIC_API_KEY"
  obtain ⟨kM, hkM, hneM⟩ := henv "MISTRAL_API_KEY"
  obtain ⟨kC, hkC, hneC⟩ := henv "CO_API_KEY"
  constructor
  · rintro ⟨ht, hp⟩
    refine ⟨?_, ?_, ?_, ?_⟩ <;>
      simp [openaiInit, anthropicInit, mistralInit, cohereInit, baseLLMInit, ht, hp,
        hkO, hkA, hkM, hkC, hneO, hneA, hneM, hneC, Except.isOk, Except.toBool,
        bind, Except.bind]
  · intro hout
    by_cases ht : 0 ≤ t ∧ t ≤ 1
    · have hp : ¬ (0 ≤ p ∧ p ≤ 1) := fun hp => hout ⟨ht, hp⟩
      exact ⟨"Top_p must be between 0 and 1", by
        refine ⟨?_, ?_, ?_, ?_⟩ <;>
          simp [openaiInit, anthropicInit, mistralInit, cohereInit, baseLLMInit, ht, hp,
            bind, Except.bind]⟩
    · exact ⟨"Temperature must be between 0 and 1", by
        refine ⟨?_, ?_, ?_, ?_⟩ <;>
          simp [openaiInit, anthropicInit, mistralInit, cohereInit, baseLLMInit, ht,
            bind, Except.bind]⟩

/-- C8 witness: with every credential set to "k", construction succeeds at
    temperature = top_p = 1/2 and fails with the range ValueError at
    temperature = 2. -/
theorem C8_adapter_construction_witness :
    (openaiInit (fun _ => some "k") none (1/2) 1500 (1/2) 0 0 []).isOk = true ∧
    (∃ msg, openaiInit (fun _ => some "k") none 2 1500 (1/2) 0 0 [] =
      .error (.valueError msg)) := by
  have henv : ∀ nm : String, ∃ k, (fun _ : String => some "k") nm = some k ∧ k ≠ "" :=
    fun _ => ⟨"k", rfl, by decide⟩
  have h1 := (C8_adapter_construction (fun _ => some "k") henv none 1500 (1/2) (1/2) 0 0 []).1
    (by norm_num)
  have h2 := (C8_adapter_construction (fun _ => some "k") henv none 1500 2 (1/2) 0 0 []).2
    (by norm_num)
  obtain ⟨msg, hm⟩ := h2
  exact ⟨h1.1, ⟨msg, hm.1⟩⟩

/- ===== C3 ===== -/

/-- C3 counterexample: a 2xx response whose expected list field is the empty
    list — `choices` for OpenAI, `content` for Anthropic — makes `generate`
    raise an uncaught IndexError past the adapter boundary (`except` only
    covers RequestException and KeyError), contradicting the claim that
    generate never raises. -/
theorem C3_generate_raises_counterexample :
    openaiGenerate (.ok (.jobj [("choices", .jarr [])])) = .error .indexError ∧
    anthropicGenerate (.ok (.jobj [("content", .jarr [])])) = .error .indexError :=
  ⟨rfl, rfl⟩

/-- C3 amended: `generate` returns the trimmed text on a well-formed
    response, a textual error carrying the cause on HTTP-layer failure, and a
    textual parse-error description on a response missing an expected
    dictionary key; however it is not total — a response whose expected list
    field is empty (or whose fields have unexpected types) raises an uncaught
    exception past the adapter boundary. -/
theorem C3_generate_behaviour (m s : String) (fs : List (String × JValue))
    (hnoc : assocFind "choices" fs = none) (hnot : assocFind "content" fs = none) :
    openaiGenerate (.exn m) = .ok ("Error during OpenAI request: " ++ m) ∧
    openaiGenerate (.ok (.jobj [("choices",
        .jarr [.jobj [("message", .jobj [("content", .jstr s)])]])])) = .ok s.trim ∧
    openaiGenerate (.ok (.jobj fs)) = .ok "Error parsing OpenAI API response." ∧
    anthropicGenerate (.exn m) = .ok ("Error during Anthropic request: " ++ m) ∧
    anthropicGenerate (.ok (.jobj [("content",
        .jarr [.jobj [("text", .jstr s)]])])) = .ok s.trim ∧
    anthropicGenerate (.ok (.jobj fs)) = .ok "Error parsing Anthropic API response." := by
  refine ⟨rfl, rfl, ?_, rfl, rfl, ?_⟩
  · simp [openaiGenerate, JValue.subscr, hnoc, bind, Except.bind]
  · simp [anthropicGenerate, JValue.subscr, hnot, bind, Except.bind]

/-- C3 witness: concrete instances of the amended behaviour. -/
theorem C3_generate_behaviour_witness :
    openaiGenerate (.exn "timeout") = .ok ("Error during OpenAI request: " ++ "timeout") ∧
    openaiGenerate (.ok (.jobj [("choices",
        .jarr [.jobj [("message", .jobj [("content", .jstr " hi ")])]])])) =
      .ok " hi ".trim ∧
    openaiGenerate (.ok (.jobj [])) = .ok "Error parsing OpenAI API response." := by
  have h := C3_generate_behaviour "timeout" " hi " [] rfl rfl
  exact ⟨h.1, h.2.1, h.2.2.1⟩

/- ===== C6 ===== -/

theorem entity_roundtrip (e : Entity) : Entity.fromDictJ e.toDictJ = .ok e := by
  obtain ⟨n, a, c⟩ := e
  simp [Entity.toDictJ, Entity.fromDictJ, JValue.subscr, assocFind, JValue.containsStr,
        JValue.asStr, fromisoformatJ, fromisoformat_isoformat, bind, Except.bind, pure,
        Except.pure]

theorem historyEntry_roundtrip (e : HistoryEntry) :
    HistoryEntry.fromDictJ e.toDictJ =
      .ok { e with metadata := some (HistoryEntry.metaOrEmpty e.metadata) } := by
  obtain ⟨t, q, r, m⟩ := e
  simp [HistoryEntry.toDictJ, HistoryEntry.fromDictJ, JValue.subscr, assocFind,
        JValue.dictGet, JValue.asStr, fromisoformatJ, fromisoformat_isoformat, bind,
        Except.bind, pure, Except.pure]

theorem exceptMapList_cons_ok (f : α → Except PyError β) (x : α) (xs : List α)
    (y : β) (ys : List β) (hx : f x = .ok y) (hxs : exceptMapList f xs = .ok ys) :
    exceptMapList f (x :: xs) = .ok (y :: ys) := by
  simp [exceptMapList, hx, hxs, bind, Except.bind, pure, Except.pure]

theorem entities_map_roundtrip (ents : List (String × Entity)) :
    exceptMapList (fun p => (Entity.fromDictJ p.2).map (fun e => (p.1, e)))
      (ents.map (fun p => (p.1, p.2.toDictJ))) = .ok ents := by
  induction ents with
  | nil => rfl
  | cons p rest ih =>
    rw [List.map_cons]
    exact exceptMapList_cons_ok _ _ _ _ _ (by simp [entity_roundtrip, Except.map]) ih

theorem history_list_roundtrip (l : List HistoryEntry) :
    exceptMapList HistoryEntry.fromDictJ (l.map HistoryEntry.toDictJ) =
      .ok (l.map (fun e => { e with metadata := some (HistoryEntry.metaOrEmpty e.metadata) })) := by
  induction l with
  | nil => rfl
  | cons e rest ih =>
    rw [List.map_cons]
    exact exceptMapList_cons_ok _ _ _ _ _ (historyEntry_roundtrip e) ih

/-- C6 counterexample: a HistoryEntry whose metadata is None does not
    round-trip field-for-field — serialization turns the None into an empty
    mapping, so deserialization yields a different record. -/
theorem C6_roundtrip_counterexample :
    HistoryEntry.fromDictJ
        (HistoryEntry.toDictJ { timestamp := ⟨5⟩, query := "q", response := "r",
                                metadata := none }) ≠
      .ok { timestamp := ⟨5⟩, query := "q", response := "r", metadata := none } := by
  intro h
  rw [show HistoryEntry.fromDictJ
        (HistoryEntry.toDictJ { timestamp := ⟨5⟩, query := "q", response := "r",
                                metadata := none }) =
      Except.ok { timestamp := ⟨5⟩, query := "q", response := "r",
                  metadata := some (JValue.jobj []) } from rfl] at h
  exact Option.some_ne_none _ (congrArg HistoryEntry.metadata (Except.ok.inj h))

/-- C6 amended: serializing and deserializing an entity mapping yields the
    original mapping field-for-field (timestamps round-tripped through their
    text encoding); a history sequence round-trips the same way except that
    each entry's metadata is normalized — None (or any falsy value) becomes
    the empty mapping, while a truthy metadata value is preserved exactly. -/
theorem C6_roundtrip_amended (ents : List (String × Entity)) (l : List HistoryEntry) :
    exceptMapList (fun p => (Entity.fromDictJ p.2).map (fun e => (p.1, e)))
        (ents.map (fun p => (p.1, p.2.toDictJ))) = .ok ents ∧
    exceptMapList HistoryEntry.fromDictJ (l.map HistoryEntry.toDictJ) =
      .ok (l.map (fun e => { e with metadata := some (HistoryEntry.metaOrEmpty e.metadata) })) ∧
    (∀ (e : HistoryEntry) (mv : JValue), e.metadata = some mv → mv.falsy = false →
      ({ e with metadata := some (HistoryEntry.metaOrEmpty e.metadata) } : HistoryEntry) = e) := by
  refine ⟨entities_map_roundtrip ents, history_list_roundtrip l, ?_⟩
  intro e mv hm hf
  obtain ⟨t, q, r, m⟩ := e
  simp only at hm
  subst hm
  simp [HistoryEntry.metaOrEmpty, hf]

/-- A sample history entry with truthy metadata. -/
def c6SampleEntry : HistoryEntry :=
  { timestamp := ⟨5⟩, query := "q", response := "r",
    metadata := some (.jobj [("k", .jstr "v")]) }

/-- C6 witness: concrete collections — an entity map and a history entry with
    truthy metadata — instantiating the amended round-trip. -/
theorem C6_roundtrip_amended_witness :
    exceptMapList (fun p => (Entity.fromDictJ p.2).map (fun e => (p.1, e)))
        (([("a", ({ name := "a", attributes := .jobj [("x", .jnum 1)],
                    created_at := ⟨7⟩ } : Entity))]).map (fun p => (p.1, p.2.toDictJ))) =
      .ok [("a", { name := "a", attributes := .jobj [("x", .jnum 1)], created_at := ⟨7⟩ })] ∧
    c6SampleEntry =
      { timestamp := ⟨5⟩, query := "q", response := "r",
        metadata := some (HistoryEntry.metaOrEmpty (some (.jobj [("k", .jstr "v")]))) } := by
  have h := C6_roundtrip_amended
    [("a", { name := "a", attributes := .jobj [("x", .jnum 1)], created_at := ⟨7⟩ })]
    [c6SampleEntry]
  refine ⟨h.1, ?_⟩
  have h3 := h.2.2 c6SampleEntry (.jobj [("k", .jstr "v")]) rfl rfl
  exact h3.symm

/- ===== C9 ===== -/

/-- C9 counterexample: the history document "[\x7b\x7d]" is valid JSON of the
    wrong shape (a list with one empty dict); loading it raises a KeyError
    from `HistoryEntry.from_dict` — the `except` clause covers only
    FileNotFoundError and JSONDecodeError — so loading a malformed document
    can propagate an error instead of yielding the empty collection. -/
theorem C9_load_counterexample :
    loadHistory (some "[\x7b\x7d]") = .error (.keyError "timestamp") ∧
    loadHistory (some "[\x7b\x7d]") ≠ .ok [] := by
  refine ⟨rfl, ?_⟩
  intro h
  rw [show loadHistory (some "[\x7b\x7d]") = .error (.keyError "timestamp") from rfl] at h
  exact Except.noConfusion h

/-- C9 amended: an absent document, or one whose text is not valid JSON,
    loads as the empty collection with no error; but a document that is valid
    JSON of the wrong shape can raise an uncaught error past the loader. -/
theorem C9_load_empty (t : String) (ht : loads t = .error .jsonDecodeError) :
    loadHistory none = .ok [] ∧
    loadEntities none = .ok [] ∧
    loadHistory (some t) = .ok [] ∧
    loadEntities (some t) = .ok [] ∧
    loadHistory (some "[\x7b\x7d]") = .error (.keyError "timestamp") := by
  refine ⟨rfl, rfl, ?_, ?_, rfl⟩ <;> simp [loadHistory, loadEntities, ht]

/-- C9 witness: the non-JSON text "not json" loads as the empty collection. -/
theorem C9_load_empty_witness :
    loadHistory none = .ok [] ∧
    loadHistory (some "not json") = .ok [] ∧
    loadEntities (some "not json") = .ok [] := by
  have h := C9_load_empty "not json" rfl
  exact ⟨h.1, h.2.2.1, h.2.2.2.1⟩

/- ===== C4 ===== -/

/-- A streaming line whose payload parses and carries the delta "hi". -/
def c4GoodLine : String := "data: \x7b\"choices\":[\x7b\"delta\":\x7b\"content\":\"hi\"\x7d\x7d]\x7d"

/-- A streaming line whose payload parses but carries no delta. -/
def c4NoDeltaLine : String := "data: \x7b\"choices\":[\x7b\x7d]\x7d"

/-- C4 counterexample: a line with a malformed (non-JSON) "data: " payload is
    not silently skipped — `json.loads` raises inside the generator-wide
    `try`, so the stream yields one terminal error chunk and stops, never
    reaching the following well-formed line (which alone would yield "hi"). -/
theorem C4_malformed_counterexample :
    openaiStreamLines ["data: notjson", c4GoodLine] = [streamErrorChunk .jsonDecodeError] ∧
    openaiStreamLines ["data: notjson", c4GoodLine] ≠ ["hi"] ∧
    openaiStreamLines [c4GoodLine] = ["hi"] ∧
    mistralStreamLines ["data: notjson", c4GoodLine] = [streamErrorChunk .jsonDecodeError] := by
  refine ⟨by decide, by decide, by decide, by decide⟩

/-- C4 amended: a "data: " line whose payload parses as JSON but carries no
    (or an empty) text delta is silently skipped — no chunk, no error, the
    stream continues with the remaining lines; a "data: " line whose payload
    is malformed JSON instead makes the stream yield exactly one terminal
    error chunk and stop. Stated for the OpenAI and Mistral adapters the
    claim cites. -/
theorem C4_stream_line_handling :
    (∀ (line : String) (rest : List String) (d : JValue),
      line ≠ "" → pyStartsWith line "data: " = true → line ≠ "data: [DONE]" →
      loads (pyDrop line 6) = .ok d →
      openaiDelta d = .ok none → mistralDelta d = .ok none →
      openaiStreamLines (line :: rest) = openaiStreamLines rest ∧
      mistralStreamLines (line :: rest) = mistralStreamLines rest) ∧
    (∀ (line : String) (rest : List String),
      line ≠ "" → pyStartsWith line "data: " = true → line ≠ "data: [DONE]" →
      loads (pyDrop line 6) = .error .jsonDecodeError →
      openaiStreamLines (line :: rest) = [streamErrorChunk .jsonDecodeError] ∧
      mistralStreamLines (line :: rest) = [streamErrorChunk .jsonDecodeError]) := by
  constructor
  · intro line rest d h1 h2 h3 h4 h5 h6
    constructor
    · simp [openaiStreamLines, h1, h2, h3, h4, h5]
    · simp [mistralStreamLines, h1, h2, h4, h6]
  · intro line rest h1 h2 h3 h4
    constructor
    · simp [openaiStreamLines, h1, h2, h3, h4]
    · simp [mistralStreamLines, h1, h2, h4]

/-- C4 witness: a no-delta line is skipped and the stream continues; a
    malformed line yields the terminal error chunk. -/
theorem C4_stream_line_handling_witness :
    openaiStreamLines [c4NoDeltaLine, c4GoodLine] = openaiStreamLines [c4GoodLine] ∧
    mistralStreamLines [c4NoDeltaLine, c4GoodLine] = mistralStreamLines [c4GoodLine] ∧
    openaiStreamLines ["data: notjson"] = [streamErrorChunk .jsonDecodeError] ∧
    mistralStreamLines ["data: notjson"] = [streamErrorChunk .jsonDecodeError] := by
  have hskip := C4_stream_line_handling.1 c4NoDeltaLine [c4GoodLine]
    (.jobj [("choices", .jarr [.jobj []])]) (by decide) (by decide) (by decide) rfl rfl rfl
  have herr := C4_stream_line_handling.2 "data: notjson" [] (by decide) (by decide)
    (by decide) rfl
  exact ⟨hskip.1, hskip.2, herr.1, herr.2⟩

/- ===== C5 ===== -/

/-- C5 counterexample: the Mistral adapter has no sentinel branch, so a
    "data: [DONE]" line is fed to `json.loads`, fails to parse, and the
    stream yields one (error) chunk at the sentinel instead of terminating
    with no further chunks. -/
theorem C5_sentinel_counterexample :
    mistralStreamLines ["data: [DONE]"] = [streamErrorChunk .jsonDecodeError] ∧
    mistralStreamLines ["data: [DONE]"] ≠ [] := by
  refine ⟨by decide, by decide⟩

/-- C5 amended: in the OpenAI and Anthropic adapters a "data: [DONE]" line
    terminates the yielded sequence and the lines after it are never
    processed; the Mistral and Cohere adapters lack the sentinel branch and
    instead yield exactly one terminal error chunk at the sentinel (its
    payload fails JSON parsing) before stopping. -/
theorem C5_sentinel_behaviour (pre post : List String) :
    (openaiStreamLines (pre ++ "data: [DONE]" :: post) =
      openaiStreamLines (pre ++ ["data: [DONE]"])) ∧
    (anthropicStreamLines (pre ++ "data: [DONE]" :: post) =
      anthropicStreamLines (pre ++ ["data: [DONE]"])) ∧
    openaiStreamLines ("data: [DONE]" :: post) = [] ∧
    anthropicStreamLines ("data: [DONE]" :: post) = [] ∧
    mistralStreamLines ("data: [DONE]" :: post) = [streamErrorChunk .jsonDecodeError] ∧
    cohereStreamLines ("data: [DONE]" :: post) = [streamErrorChunk .jsonDecodeError] := by
  have hs1 : ¬ ("data: [DONE]" = "") := by decide
  have hs2 : pyStartsWith "data: [DONE]" "data: " = true := by decide
  have hld : loads (pyDrop "data: [DONE]" 6) = Except.error PyError.jsonDecodeError := rfl
  refine ⟨?_, ?_, ?_, ?_, ?_, ?_⟩
  · induction pre with
    | nil => simp [openaiStreamLines, hs1, hs2]
    | cons l pre ih =>
      simp only [List.cons_append, openaiStreamLines]
      split_ifs with h1 h2 h3
      · exact ih
      · rfl
      · rcases loads (pyDrop l 6) with e | d
        · rfl
        · dsimp only
          rcases openaiDelta d with e | o
          · rfl
          · rcases o with _ | tok
            · exact ih
            · exact congrArg (fun x => tok :: x) ih
      · exact ih
  · induction pre with
    | nil => simp [anthropicStreamLines, hs1, hs2]
    | cons l pre ih =>
      simp only [List.cons_append, anthropicStreamLines]
      split_ifs with h1 h2 h3
      · exact ih
      · rfl
      · rcases loads (pyDrop l 6) with e | d
        · rfl
        · dsimp only
          rcases anthropicDelta d with e | o
          · rfl
          · rcases o with _ | tok
            · exact ih
            · exact congrArg (fun x => tok :: x) ih
      · exact ih
  · simp [openaiStreamLines, hs1, hs2]
  · simp [anthropicStreamLines, hs1, hs2]
  · simp [mistralStreamLines, hs1, hs2, hld]
  · simp [cohereStreamLines, hs1, hs2, hld]
